import Mathlib

/-!
Verification of the riskbot session engine.

This file gives a shallow embedding, in Lean, of the state-bearing parts of
the riskbot program (riskbot.py, commands.py): the canonical-pair relation
state machine shared by the alliance and NAP tables, the roll log, the
turn-history store (turn maps and roster snapshots), the reaction-driven
navigation controller, and the rate-limit-aware REST request helper.
SQLite tables become functional maps or lists, timestamps become explicit
Nat parameters, and the effectful navigation and REST paths return explicit
effect lists in place of performing network calls.

String primitives (lowercase, strip, lexicographic comparison, startsWith)
are implemented over the underlying character list so that every definition
evaluates inside the kernel; they agree with the Python operations the
source uses, which compare and transform strings by code point.
-/

namespace Risk

/-- Lowercase a string character by character; implements Python str.lower
as used on the short ASCII status strings of the program. -/
def lower_string (s : String) : String := ⟨s.data.map Char.toLower⟩

/-- Strip leading and trailing whitespace; implements Python str.strip. -/
def trim_string (s : String) : String :=
  ⟨((s.data.dropWhile Char.isWhitespace).reverse.dropWhile Char.isWhitespace).reverse⟩

/-- Lexicographic comparison of character lists by code point; the order
Python uses for its str comparison operators. -/
def chars_le : List Char → List Char → Bool
  | [], _ => true
  | _ :: _, [] => false
  | a :: as, b :: bs =>
    if a.toNat < b.toNat then true
    else if b.toNat < a.toNat then false
    else chars_le as bs

/-- Python string comparison u1 less-or-equal u2, by code point. -/
def str_le (a b : String) : Bool := chars_le a.data b.data

/-- Character-list version of startsWith (second argument is the pattern). -/
def starts_with_chars : List Char → List Char → Bool
  | _, [] => true
  | [], _ :: _ => false
  | a :: as, b :: bs => (a.toNat == b.toNat) && starts_with_chars as bs

/-- Python str.startswith over the character lists. -/
def str_starts_with (s pat : String) : Bool := starts_with_chars s.data pat.data

/-- Canonical ordering of a user pair, lexicographically smaller id first.
Embeds Store._canon_pair (riskbot.py 387-389). -/
def canon_pair (user_1 user_2 : String) : String × String :=
  if str_le user_1 user_2 then (user_1, user_2) else (user_2, user_1)

/-- One stored relation row (tables alliances / naps, less the key columns
channel_id, user_a, user_b which key the table map). -/
structure RelRow where
  status : String
  proposed_by : String
  created_at : Nat
  updated_at : Nat
  deriving DecidableEq, Repr

/-- A relation table: (channel_id, user_a, user_b) to the stored row.
The alliances and naps tables are two independent values of this type. -/
abbrev RelTable := String → String → String → Option RelRow

/-- The empty relation table. -/
def rel_empty : RelTable := fun _ _ _ => none

/-- Write (or delete, with none) the row at one exact key. -/
def rel_set (t : RelTable) (channel_id ua ub : String) (v : Option RelRow) : RelTable :=
  fun c a b => if c = channel_id ∧ a = ua ∧ b = ub then v else t c a b

/-- Lookup through the canonical pair. Embeds Store.alliance_get
(riskbot.py 391-398) and the textually identical Store.nap_get (470-477). -/
def rel_get (t : RelTable) (channel_id user_1 user_2 : String) : Option RelRow :=
  t channel_id (canon_pair user_1 user_2).1 (canon_pair user_1 user_2).2

/-- Status normalisation applied before comparison in the source:
(existing["status"] or "").strip().lower(). The status column is NOT NULL,
so only strip-then-lowercase remains. -/
def norm_status (s : String) : String := lower_string (trim_string s)

/-- Embeds Store.alliance_propose_or_accept (riskbot.py 400-435); the body
of Store.nap_propose_or_accept (479-514) is textually identical over the
naps table, so both methods are embedded by this one definition applied to
their respective table. Returns the updated table and the result string. -/
def rel_propose_or_accept (t : RelTable) (channel_id proposer_id target_id : String)
    (now : Nat) : RelTable × String :=
  let ua := (canon_pair proposer_id target_id).1
  let ub := (canon_pair proposer_id target_id).2
  match rel_get t channel_id proposer_id target_id with
  | none =>
      (rel_set t channel_id ua ub (some ⟨"pending", proposer_id, now, now⟩), "proposed")
  | some existing =>
      let status := norm_status existing.status
      if status = "accepted" then (t, "already_accepted")
      else if status ≠ "pending" then (t, "invalid_state")
      else if existing.proposed_by = proposer_id then (t, "already_pending")
      else
        (rel_set t channel_id ua ub
          (some { existing with status := "accepted", updated_at := now }), "accepted")

/-- Embeds Store.alliance_break (riskbot.py 451-468); the body of
Store.nap_break (530-547) is textually identical over the naps table, so
both methods are embedded by this one definition. -/
def rel_break (t : RelTable) (channel_id user_1 user_2 : String) : RelTable × String :=
  match rel_get t channel_id user_1 user_2 with
  | none => (t, "missing")
  | some existing =>
      let status := norm_status existing.status
      let ua := (canon_pair user_1 user_2).1
      let ub := (canon_pair user_1 user_2).2
      let t' := rel_set t channel_id ua ub none
      if status = "accepted" then (t', "broken")
      else if status = "pending" then (t', "cancelled_pending")
      else (t', "removed")

/-- Well-formed relation table: every stored row has status pending or
accepted. This is the invariant of all tables reachable through the store
operations (rows are only inserted as pending and only updated to
accepted); see relWF_empty, relWF_propose and relWF_break below. -/
def RelWF (t : RelTable) : Prop :=
  ∀ c a b row, t c a b = some row → row.status = "pending" ∨ row.status = "accepted"

/-- A one-row relation table holding an accepted alliance, used to
exercise the break operation on a concrete input. -/
def c3_table : RelTable :=
  rel_set rel_empty "chan" "alice" "bob" (some ⟨"accepted", "alice", 0, 0⟩)

/-- One row of the rolls table. The append-only list models the table
ordered by insertion (autoincrement id), which is also the
created_at ASC, id ASC order the queries use, timestamps being
nondecreasing. -/
structure RollRow where
  channel_id : String
  turn_number : Nat
  user_id : String
  roll_value : String
  order_text : String
  created_at : Nat
  message_id : String
  deriving DecidableEq, Repr

/-- The WHERE clause channel_id=? AND turn_number=? AND user_id=? of the
count query in Store.roll_add. -/
def roll_match (channel_id : String) (turn_number : Nat) (user_id : String)
    (r : RollRow) : Bool :=
  r.channel_id == channel_id && r.turn_number == turn_number && r.user_id == user_id

/-- Embeds Store.roll_add (riskbot.py 326-340): insert the new roll, then
count the rows for that (channel, turn, user) and return the count. -/
def roll_add (rolls : List RollRow) (channel_id : String) (turn_number : Nat)
    (user_id roll_value order_text message_id : String) (now : Nat) :
    List RollRow × Nat :=
  let rolls' := rolls ++
    [⟨channel_id, turn_number, user_id, roll_value, order_text, now, message_id⟩]
  (rolls', (rolls'.filter (roll_match channel_id turn_number user_id)).length)

/-- One response of the REST collaborator, as consumed by
StoatAPI.request_json: the HTTP status and the retry_after field of the
decoded JSON body (in milliseconds, absent when the body has none or is
not a number). -/
structure RestResponse where
  status : Nat
  retry_after : Option ℚ
  deriving DecidableEq, Repr

/-- One sleep performed between retries: either the server-supplied
retry_after (the source sleeps retry_after_ms / 1000 seconds) or the
incrementing fallback (the source sleeps 1.0 + attempt seconds). The
embedding records which delay was chosen and its argument rather than the
floating-point duration. -/
inductive RetrySleep where
  | server (retry_after_ms : ℚ)
  | fallback (attempt : Nat)
  deriving DecidableEq, Repr

/-- The sleep chosen after a 429 response at a given attempt index:
retry_after when present and positive, else the incrementing fallback.
Embeds riskbot.py 699-703. -/
def retry_sleep (r : RestResponse) (attempt : Nat) : RetrySleep :=
  match r.retry_after with
  | some ra => if 0 < ra then RetrySleep.server ra else RetrySleep.fallback attempt
  | none => RetrySleep.fallback attempt

/-- The retry loop of StoatAPI.request_json (riskbot.py 684-705), with the
environment modelled as the sequence of responses the server would give to
successive attempts. Returns the status returned to the caller, the number
of requests made, and the sleeps performed, in order. A non-429 status
returns immediately; a 429 sleeps and retries; when the fuel (the range(5)
budget) runs out the function returns 429 (the source returns status 429
with the text Rate limited too many times). -/
def request_json_loop (responses : Nat → RestResponse) :
    Nat → Nat → Nat × Nat × List RetrySleep
  | 0, _ => (429, 0, [])
  | fuel + 1, attempt =>
    let r := responses attempt
    if r.status ≠ 429 then (r.status, 1, [])
    else
      let rest := request_json_loop responses fuel (attempt + 1)
      (rest.1, rest.2.1 + 1, retry_sleep r attempt :: rest.2.2)

/-- StoatAPI.request_json: at most five attempts, starting at attempt 0. -/
def request_json (responses : Nat → RestResponse) : Nat × Nat × List RetrySleep :=
  request_json_loop responses 5 0

/-- A concrete response sequence: one 429 carrying retry_after 500 ms,
then success. -/
def c9_responses : Nat → RestResponse :=
  fun n => if n = 0 then ⟨429, some 500⟩ else ⟨200, none⟩

/-- One row of the games table (channel_id keys the table map). -/
structure GameRow where
  op_user_id : String
  turn_number : Nat
  map_message_id : String
  map_attachment_id : Option String
  map_filename : Option String
  created_at : Nat
  deriving DecidableEq, Repr

/-- One row of the events table; the autoincrement id is the position in
the append-only list, which with nondecreasing created_at is also the
created_at ASC, id ASC order of the queries. -/
structure EventRow where
  channel_id : String
  turn_number : Nat
  user_id : Option String
  event_type : String
  summary_text : String
  created_at : Nat
  message_id : String
  deriving DecidableEq, Repr

/-- Embeds Store.events_for_turn (riskbot.py 374-384): the events of one
channel and turn, in chronological (insertion) order. -/
def events_for_turn (events : List EventRow) (channel_id : String) (turn_number : Nat) :
    List EventRow :=
  events.filter (fun e => e.channel_id == channel_id && e.turn_number == turn_number)

/-- Embeds RiskBot._events_page_count (riskbot.py 977-981): ceiling of
event count over page size, floored at one page. -/
def events_page_count (events : List EventRow) (channel_id : String) (turn : Nat)
    (page_size : Nat) : Nat :=
  let ps := if page_size < 1 then 15 else page_size
  max 1 (((events_for_turn events channel_id turn).length + ps - 1) / ps)

/-- One row of the nav_messages table (message_id keys the table map). -/
structure NavRow where
  channel_id : String
  displayed_turn : Nat
  displayed_page : Nat
  view_type : String
  created_at : Nat
  updated_at : Nat
  deriving DecidableEq, Repr

/-- The nav_messages table keyed by message id. -/
abbrev NavTable := String → Option NavRow

/-- Embeds Store.nav_get (riskbot.py 643-646). -/
def nav_get (navs : NavTable) (message_id : String) : Option NavRow :=
  navs message_id

/-- Embeds Store.nav_delete (riskbot.py 648-651). -/
def nav_delete (navs : NavTable) (message_id : String) : NavTable :=
  fun m => if m = message_id then none else navs m

/-- Embeds Store.nav_touch (riskbot.py 661-664): refresh updated_at on the
row, when one exists. -/
def nav_touch (navs : NavTable) (message_id : String) (now : Nat) : NavTable :=
  fun m =>
    if m = message_id then (navs m).map (fun r => { r with updated_at := now })
    else navs m

/-- Embeds Store.nav_update_state (riskbot.py 653-659): persist the new
turn and page and refresh updated_at. -/
def nav_update_state (navs : NavTable) (message_id : String)
    (displayed_turn displayed_page now : Nat) : NavTable :=
  fun m =>
    if m = message_id then
      (navs m).map (fun r =>
        { r with displayed_turn := displayed_turn, displayed_page := displayed_page,
                 updated_at := now })
    else navs m

/-- Embeds RiskBot._emoji_is_back (riskbot.py 1023-1024). -/
def emoji_is_back (emoji_id : String) : Bool :=
  str_starts_with emoji_id "👈" || str_starts_with emoji_id "⬅"

/-- Embeds RiskBot._emoji_is_fwd (riskbot.py 1026-1027). -/
def emoji_is_fwd (emoji_id : String) : Bool :=
  str_starts_with emoji_id "👉" || str_starts_with emoji_id "➡"

/-- Embeds RiskBot._emoji_is_page (riskbot.py 1029-1030). -/
def emoji_is_page (emoji_id : String) : Bool :=
  str_starts_with emoji_id "🤜"

/-- The view_type normalisation in handle_nav_react (riskbot.py 1073):
(view_type or "game").strip().lower(); the falsy check applies to the raw
value, before stripping. -/
def nav_view_type (r : NavRow) : String :=
  lower_string (trim_string (if r.view_type = "" then "game" else r.view_type))

/-- The turn and page transition on a reaction, from RiskBot.
handle_nav_react (riskbot.py 1077-1089): forward, then back, then (events
browsers only) next-page; none means the glyph is not recognised for this
browser and the handler returns without acting. -/
def nav_transition (events : List EventRow) (channel_id view_type : String)
    (current_turn shown_turn shown_page : Nat) (emoji_id : String) :
    Option (Nat × Nat) :=
  if emoji_is_fwd emoji_id then
    some (if shown_turn ≥ current_turn then 0 else shown_turn + 1,
      if view_type == "events" then 0 else shown_page)
  else if emoji_is_back emoji_id then
    some (if shown_turn ≤ 0 then current_turn else shown_turn - 1,
      if view_type == "events" then 0 else shown_page)
  else if view_type == "events" && emoji_is_page emoji_id then
    some (shown_turn,
      if shown_page + 1 ≥ events_page_count events channel_id shown_turn 15 then 0
      else shown_page + 1)
  else none

/-- The store state read and written by the reaction-navigation handler. -/
structure NavState where
  navs : NavTable
  games : String → Option GameRow
  events : List EventRow

/-- Outward effects of the reaction-navigation handler: clearing all
reactions from a message, scheduling (cancel-then-respawn) the expiry
supervisor of a message, and rendering the view of the given turn and
page and editing the browser message in place with it. -/
inductive NavEffect where
  | clearReactions (channel_id message_id : String)
  | scheduleExpiry (channel_id message_id : String)
  | editMessage (channel_id message_id view_type : String) (turn page : Nat)
  deriving DecidableEq, Repr

/-- Embeds RiskBot.handle_nav_react (riskbot.py 1032-1108). The event
fields are the typed parameters (the string type checks of the source are
resolved by the types); bot_user is self.user_id; edit_ok is whether the
edit_message REST call succeeds (on failure the new turn and page are not
persisted). The renderer always yields a body here since the game row was
already fetched and is passed to it, so render-then-edit is represented by
the editMessage effect carrying the rendered view parameters. -/
def handle_nav_react (st : NavState) (bot_user : Option String)
    (msg_id channel_id user_id emoji_id : String) (now : Nat) (edit_ok : Bool) :
    NavState × List NavEffect :=
  if bot_user = some user_id then (st, [])
  else
    match nav_get st.navs msg_id with
    | none => (st, [])
    | some nav =>
      if now - nav.updated_at > 30 then
        ({ st with navs := nav_delete st.navs msg_id },
          [NavEffect.clearReactions channel_id msg_id])
      else
        match st.games channel_id with
        | none => (st, [])
        | some game =>
          let view_type := nav_view_type nav
          match nav_transition st.events channel_id view_type game.turn_number
              nav.displayed_turn nav.displayed_page emoji_id with
          | none => (st, [])
          | some (new_turn, new_page) =>
            let navs1 := nav_touch st.navs msg_id now
            if new_turn = nav.displayed_turn ∧ new_page = nav.displayed_page then
              ({ st with navs := navs1 }, [NavEffect.scheduleExpiry channel_id msg_id])
            else
              if edit_ok then
                ({ st with navs := nav_update_state navs1 msg_id new_turn new_page now },
                  [NavEffect.scheduleExpiry channel_id msg_id,
                    NavEffect.editMessage channel_id msg_id view_type new_turn new_page])
              else
                ({ st with navs := navs1 },
                  [NavEffect.scheduleExpiry channel_id msg_id,
                    NavEffect.editMessage channel_id msg_id view_type new_turn new_page])

/-- A tracked game browser on message m in channel chan, showing turn 0
page 0, last active at time 0, in a session whose current turn is 0. -/
def nav_demo_state : NavState where
  navs := fun m => if m = "m" then some ⟨"chan", 0, 0, "game", 0, 0⟩ else none
  games := fun c => if c = "chan" then some ⟨"op", 0, "m0", none, none, 0⟩ else none
  events := []

/-- One row of the players table less the key columns; the per-channel
list keys users by the first component and holds rows in joined_at ASC
order, which is insertion order since join times are nondecreasing. -/
structure PlayerRow where
  player_name : String
  joined_at : Nat
  deriving DecidableEq, Repr

/-- One row of the turnmaps table less the key columns. -/
structure TurnMapRow where
  map_message_id : String
  map_attachment_id : Option String
  map_filename : Option String
  created_at : Nat
  deriving DecidableEq, Repr

/-- The SQLite store (riskbot.py 81-224), with tables as functional maps
or per-channel lists holding rows in the ORDER BY of the queries that
read them; list keys are unique, mirroring the primary keys. Only the
tables the turn-history claims touch are carried here; the two relation
tables are modelled separately as RelTable values. -/
structure Store where
  games : String → Option GameRow
  players : String → List (String × PlayerRow)
  rolls : List RollRow
  events : List EventRow
  turnmaps : String → List (Nat × TurnMapRow)
  turnplayers : String → Nat → List (String × PlayerRow)

/-- Embeds Store.game_get (riskbot.py 227-230). -/
def game_get (s : Store) (channel_id : String) : Option GameRow :=
  s.games channel_id

/-- Embeds Store.game_inc_turn (riskbot.py 269-274): increment the turn
counter in place, then read it back; the 0 default stands for the
no-session read the source would fail on, which no caller reaches. -/
def game_inc_turn (s : Store) (channel_id : String) : Store × Nat :=
  let s2 := { s with games := fun c =>
    (if c = channel_id then
      (s.games c).map (fun g => { g with turn_number := g.turn_number + 1 })
    else s.games c) }
  (s2, (s2.games channel_id).elim 0 (fun g => g.turn_number))

/-- Embeds Store.game_set_map (riskbot.py 261-267). -/
def game_set_map (s : Store) (channel_id map_message_id : String)
    (map_attachment_id map_filename : Option String) : Store :=
  { s with games := fun c =>
    if c = channel_id then
      (s.games c).map (fun g =>
        { g with map_message_id := map_message_id,
                 map_attachment_id := map_attachment_id, map_filename := map_filename })
    else s.games c }

/-- Python name normalisation (name or "").strip() or "Player", applied in
cmd_join and again inside Store.player_add_or_update. -/
def norm_name (player_name : String) : String :=
  if trim_string player_name = "" then "Player" else trim_string player_name

/-- Embeds Store.player_add_or_update (riskbot.py 277-295): update the
name in place when the user already has a row, append a new row
otherwise; returns the store, whether the row is new, and the member
count after the write. -/
def player_add_or_update (s : Store) (channel_id user_id player_name : String)
    (now : Nat) : Store × Bool × Nat :=
  let pname := norm_name player_name
  let ps := s.players channel_id
  if ps.any (fun p => p.1 == user_id) then
    let ps2 := ps.map (fun p =>
      if p.1 == user_id then (p.1, { p.2 with player_name := pname }) else p)
    ({ s with players := fun c => if c = channel_id then ps2 else s.players c },
      false, ps2.length)
  else
    let ps2 := ps ++ [(user_id, ⟨pname, now⟩)]
    ({ s with players := fun c => if c = channel_id then ps2 else s.players c },
      true, ps2.length)

/-- Embeds Store.player_remove (riskbot.py 297-303): delete the row, and
report whether anything was deleted plus the member count after. -/
def player_remove (s : Store) (channel_id user_id : String) : Store × Bool × Nat :=
  let ps := s.players channel_id
  let ps2 := ps.filter (fun p => !(p.1 == user_id))
  ({ s with players := fun c => if c = channel_id then ps2 else s.players c },
    decide (ps2.length < ps.length), ps2.length)

/-- Embeds Store.turnmap_upsert over one channel list (riskbot.py
550-571): the SQL ON CONFLICT upsert replaces the row with the same turn
key, or inserts a new row; turn keys are unique. -/
def turnmap_upsert_list : List (Nat × TurnMapRow) → Nat → TurnMapRow →
    List (Nat × TurnMapRow)
  | [], turn, row => [(turn, row)]
  | p :: rest, turn, row =>
    if p.1 == turn then (turn, row) :: rest
    else p :: turnmap_upsert_list rest turn row

/-- Store.turnmap_upsert lifted to the store. -/
def turnmap_upsert (s : Store) (channel_id : String) (turn : Nat)
    (map_message_id : String) (map_attachment_id map_filename : Option String)
    (now : Nat) : Store :=
  { s with turnmaps := fun c =>
    (if c = channel_id then
      turnmap_upsert_list (s.turnmaps c) turn
        ⟨map_message_id, map_attachment_id, map_filename, now⟩
    else s.turnmaps c) }

/-- Embeds Store.turnmap_get (riskbot.py 573-576). -/
def turnmap_get_list (tms : List (Nat × TurnMapRow)) (turn : Nat) : Option TurnMapRow :=
  (tms.find? (fun p => p.1 == turn)).map Prod.snd

/-- Embeds Store.turnmap_latest (riskbot.py 578-581): the row with the
greatest turn number (turn keys are unique). -/
def turnmap_latest_list (tms : List (Nat × TurnMapRow)) : Option (Nat × TurnMapRow) :=
  tms.foldl (fun acc p =>
    match acc with
    | none => some p
    | some q => if q.1 < p.1 then some p else some q) none

/-- Embeds Store.turnplayers_replace_from_current (riskbot.py 597-610):
delete the snapshot rows of that turn and reinsert the current members. -/
def turnplayers_replace_from_current (s : Store) (channel_id : String) (turn : Nat) :
    Store :=
  { s with turnplayers := fun c t =>
    if c = channel_id ∧ t = turn then s.players channel_id else s.turnplayers c t }

/-- Embeds Store.turnplayers_for_turn (riskbot.py 612-623). -/
def turnplayers_for_turn (s : Store) (channel_id : String) (turn : Nat) :
    List (String × PlayerRow) :=
  s.turnplayers channel_id turn

/-- Embeds Store.event_add (riskbot.py 355-372). -/
def event_add (s : Store) (channel_id : String) (turn_number : Nat)
    (user_id : Option String) (event_type summary_text message_id : String)
    (now : Nat) : Store :=
  { s with events := s.events ++
    [⟨channel_id, turn_number, user_id, event_type, summary_text, now, message_id⟩] }

/-- Embeds the store effects of cmd_join (commands.py 167-188): look up
the game, add or rename the member, re-snapshot the roster of the current
turn, log a join or rename event. Replies are not modelled. -/
def cmd_join (s : Store) (channel_id author_id msg_id args : String) (now : Nat) :
    Store :=
  match game_get s channel_id with
  | none => s
  | some game =>
    let name := norm_name args
    let r := player_add_or_update s channel_id author_id name now
    let turn := game.turn_number
    let s2 := turnplayers_replace_from_current r.1 channel_id turn
    if r.2.1 then
      event_add s2 channel_id turn (some author_id) "player_join"
        (s!"<@{author_id}> joined as **{name}**.") msg_id now
    else
      event_add s2 channel_id turn (some author_id) "player_rename"
        (s!"<@{author_id}> updated their name to **{name}**.") msg_id now

/-- Embeds the store effects of cmd_quit (commands.py 191-210): remove
the member; when a row was removed, re-snapshot the roster of the current
turn and log the quit event. -/
def cmd_quit (s : Store) (channel_id author_id msg_id : String) (now : Nat) : Store :=
  match game_get s channel_id with
  | none => s
  | some game =>
    let r := player_remove s channel_id author_id
    if r.2.1 then
      let turn := game.turn_number
      let s2 := turnplayers_replace_from_current r.1 channel_id turn
      event_add s2 channel_id turn (some author_id) "player_quit"
        (s!"<@{author_id}> left the game.") msg_id now
    else r.1

/-- Embeds the store effects of cmd_mup (commands.py 790-846): owner
check, advance the turn, pick the map of the new turn (the attached image
when the message carries one, else the carry-forward of the latest stored
turn map), update the game map fields and upsert the turn map, snapshot
the roster for the new turn, log the turn_advance event. Replies and the
published game view are not modelled; the second component is the new
turn number when the command acted. -/
def cmd_mup (s : Store) (channel_id author_id msg_id : String)
    (attachment : Option (String × String)) (note : String) (now : Nat) :
    Store × Option Nat :=
  match game_get s channel_id with
  | none => (s, none)
  | some game =>
    if author_id = game.op_user_id then
      let r := game_inc_turn s channel_id
      let s1 := r.1
      let new_turn := r.2
      let attfn : Option String × Option String :=
        match attachment with
        | some af => (some af.1, some af.2)
        | none =>
          match turnmap_latest_list (s1.turnmaps channel_id) with
          | some prev => (prev.2.map_attachment_id, prev.2.map_filename)
          | none => (none, none)
      let s2 :=
        match attfn with
        | (some a, some f) =>
          turnmap_upsert (game_set_map s1 channel_id msg_id (some a) (some f))
            channel_id new_turn msg_id (some a) (some f) now
        | _ => turnmap_upsert s1 channel_id new_turn msg_id none none now
      let s3 := turnplayers_replace_from_current s2 channel_id new_turn
      let note2 := trim_string note
      let summary :=
        if note2 = "" then s!"Turn **{new_turn}** started by <@{author_id}>."
        else s!"Turn **{new_turn}** started by <@{author_id}>. Note: {note2}"
      (event_add s3 channel_id new_turn (some author_id) "turn_advance" summary msg_id now,
        some new_turn)
    else (s, none)

/-- The roster selection of RiskBot.render_turn_view (riskbot.py
910-920): none when no session exists; otherwise the roster snapshot of
the requested turn, falling back to the live member list when the
snapshot is empty. This is the roster the rendered game view displays. -/
def render_turn_view_roster (s : Store) (channel_id : String) (turn : Nat) :
    Option (List (String × PlayerRow)) :=
  match game_get s channel_id with
  | none => none
  | some _ =>
    let players := turnplayers_for_turn s channel_id turn
    some (if players.isEmpty then s.players channel_id else players)

/-- A store with one session in channel chan at turn 0 (owner op, initial
map m0 with attachment att0), no members yet, and the turn 0 map stored
as cmd_start stores it. -/
def store0 : Store where
  games := fun c =>
    if c = "chan" then some ⟨"op", 0, "m0", some "att0", some "map.png", 0⟩ else none
  players := fun _ => []
  rolls := []
  events := []
  turnmaps := fun c =>
    if c = "chan" then [(0, ⟨"m0", some "att0", some "map.png", 0⟩)] else []
  turnplayers := fun _ _ => []

/-- store0 after alice joins as Alice at turn 0, which snapshots turn 0. -/
def store_joined : Store := cmd_join store0 "chan" "alice" "mj" "Alice" 1

/-- store_joined after alice renames to Bob while turn 0 is current. -/
def store_renamed : Store := cmd_join store_joined "chan" "alice" "mk" "Bob" 2

/-- store_joined after the owner advances to turn 1, leaving the turn 0
snapshot in the past. -/
def store_turn1 : Store := (cmd_mup store_joined "chan" "op" "m1" none "" 3).1

end Risk

namespace Risk

theorem char_eq_of_toNat_eq {a b : Char} (h : a.toNat = b.toNat) : a = b :=
  Char.eq_of_val_eq (UInt32.ext h)

theorem chars_le_antisymm : ∀ {a b : List Char},
    chars_le a b = true → chars_le b a = true → a = b
  | [], [], _, _ => rfl
  | [], _ :: _, _, h2 => by simp [chars_le] at h2
  | _ :: _, [], h1, _ => by simp [chars_le] at h1
  | a :: as, b :: bs, h1, h2 => by
    unfold chars_le at h1 h2
    by_cases hab : a.toNat < b.toNat
    · rw [if_neg (Nat.lt_asymm hab), if_pos hab] at h2
      simp at h2
    · by_cases hba : b.toNat < a.toNat
      · rw [if_neg hab, if_pos hba] at h1
        simp at h1
      · rw [if_neg hab, if_neg hba] at h1
        rw [if_neg hba, if_neg hab] at h2
        have hn : a = b :=
          char_eq_of_toNat_eq
            (Nat.le_antisymm (Nat.le_of_not_lt hba) (Nat.le_of_not_lt hab))
        subst hn
        rw [chars_le_antisymm h1 h2]

theorem chars_le_total : ∀ (a b : List Char), chars_le a b = true ∨ chars_le b a = true
  | [], [] => Or.inl rfl
  | [], _ :: _ => Or.inl rfl
  | _ :: _, [] => Or.inr rfl
  | a :: as, b :: bs => by
    unfold chars_le
    by_cases hab : a.toNat < b.toNat
    · left
      rw [if_pos hab]
    · by_cases hba : b.toNat < a.toNat
      · right
        rw [if_pos hba]
      · rcases chars_le_total as bs with h | h
        · left
          rw [if_neg hab, if_neg hba]
          exact h
        · right
          rw [if_neg hba, if_neg hab]
          exact h

theorem str_le_antisymm {a b : String} (h1 : str_le a b = true) (h2 : str_le b a = true) :
    a = b := by
  cases a with
  | mk la =>
    cases b with
    | mk lb =>
      have : la = lb := chars_le_antisymm h1 h2
      rw [this]

theorem str_le_total (a b : String) : str_le a b = true ∨ str_le b a = true :=
  chars_le_total a.data b.data

theorem norm_status_pending : norm_status "pending" = "pending" := by decide

theorem norm_status_accepted : norm_status "accepted" = "accepted" := by decide

theorem canon_pair_comm (u v : String) : canon_pair u v = canon_pair v u := by
  unfold canon_pair
  by_cases h1 : str_le u v = true
  · by_cases h2 : str_le v u = true
    · have := str_le_antisymm h1 h2
      subst this
      rfl
    · simp [h1, h2]
  · have h2 : str_le v u = true := (str_le_total u v).resolve_left h1
    simp [h1, h2]

theorem rel_get_comm (t : RelTable) (c u v : String) :
    rel_get t c u v = rel_get t c v u := by
  unfold rel_get
  rw [canon_pair_comm]

theorem rel_get_set_self (t : RelTable) (c u v : String) (r : Option RelRow) :
    rel_get (rel_set t c (canon_pair u v).1 (canon_pair u v).2 r) c u v = r := by
  unfold rel_get rel_set
  simp

theorem rel_set_other (t : RelTable) (c ua ub : String) (r : Option RelRow)
    (c' a' b' : String) (h : ¬ (c' = c ∧ a' = ua ∧ b' = ub)) :
    rel_set t c ua ub r c' a' b' = t c' a' b' := by
  unfold rel_set
  rw [if_neg h]

theorem relWF_empty : RelWF rel_empty := by
  intro c a b row h
  simp [rel_empty] at h

theorem relWF_set_pending (t : RelTable) (h : RelWF t) (c ua ub p : String) (n m : Nat) :
    RelWF (rel_set t c ua ub (some ⟨"pending", p, n, m⟩)) := by
  intro c' a' b' row hrow
  unfold rel_set at hrow
  split at hrow
  · cases hrow
    left
    rfl
  · exact h c' a' b' row hrow

theorem relWF_set_accepted (t : RelTable) (h : RelWF t) (c ua ub : String)
    (row : RelRow) (n : Nat) :
    RelWF (rel_set t c ua ub (some { row with status := "accepted", updated_at := n })) := by
  intro c' a' b' row' hrow
  unfold rel_set at hrow
  split at hrow
  · cases hrow
    right
    rfl
  · exact h c' a' b' row' hrow

theorem relWF_set_none (t : RelTable) (h : RelWF t) (c ua ub : String) :
    RelWF (rel_set t c ua ub none) := by
  intro c' a' b' row' hrow
  unfold rel_set at hrow
  split at hrow
  · cases hrow
  · exact h c' a' b' row' hrow

theorem relWF_propose (t : RelTable) (h : RelWF t) (c p q : String) (now : Nat) :
    RelWF (rel_propose_or_accept t c p q now).1 := by
  unfold rel_propose_or_accept
  cases hg : rel_get t c p q with
  | none =>
      exact relWF_set_pending t h c _ _ p now now
  | some existing =>
      by_cases h1 : norm_status existing.status = "accepted"
      · simpa [hg, h1] using h
      · by_cases h2 : norm_status existing.status = "pending"
        · by_cases h3 : existing.proposed_by = p
          · simpa [hg, h1, h2, h3] using h
          · simpa [hg, h1, h2, h3] using relWF_set_accepted t h c _ _ existing now
        · simpa [hg, h1, h2] using h

theorem relWF_break (t : RelTable) (h : RelWF t) (c u v : String) :
    RelWF (rel_break t c u v).1 := by
  unfold rel_break
  cases hg : rel_get t c u v with
  | none => simpa using h
  | some existing =>
      have hs := relWF_set_none t h c (canon_pair u v).1 (canon_pair u v).2
      by_cases h1 : norm_status existing.status = "accepted"
      · simpa [hg, h1] using hs
      · by_cases h2 : norm_status existing.status = "pending"
        · simpa [hg, h1, h2] using hs
        · simpa [hg, h1, h2] using hs

theorem pending_ne_accepted : ("pending" : String) ≠ "accepted" := by decide

theorem rel_propose_none (t : RelTable) (c p q : String) (now : Nat)
    (hg : rel_get t c p q = none) :
    rel_propose_or_accept t c p q now =
      (rel_set t c (canon_pair p q).1 (canon_pair p q).2 (some ⟨"pending", p, now, now⟩),
        "proposed") := by
  simp only [rel_propose_or_accept, hg]

theorem rel_propose_already_accepted (t : RelTable) (c p q : String) (now : Nat)
    (row : RelRow) (hg : rel_get t c p q = some row)
    (hst : norm_status row.status = "accepted") :
    rel_propose_or_accept t c p q now = (t, "already_accepted") := by
  simp only [rel_propose_or_accept, hg, hst]
  simp

theorem rel_propose_pending_same (t : RelTable) (c p q : String) (now : Nat)
    (row : RelRow) (hg : rel_get t c p q = some row)
    (hst : norm_status row.status = "pending") (hby : row.proposed_by = p) :
    rel_propose_or_accept t c p q now = (t, "already_pending") := by
  simp only [rel_propose_or_accept, hg, hst]
  rw [if_neg pending_ne_accepted, if_neg (fun h => h rfl), if_pos hby]

theorem rel_propose_pending_other (t : RelTable) (c p q : String) (now : Nat)
    (row : RelRow) (hg : rel_get t c p q = some row)
    (hst : norm_status row.status = "pending") (hby : row.proposed_by ≠ p) :
    rel_propose_or_accept t c p q now =
      (rel_set t c (canon_pair p q).1 (canon_pair p q).2
        (some { row with status := "accepted", updated_at := now }), "accepted") := by
  simp only [rel_propose_or_accept, hg, hst]
  rw [if_neg pending_ne_accepted, if_neg (fun h => h rfl), if_neg hby]

theorem rel_propose_invalid (t : RelTable) (c p q : String) (now : Nat)
    (row : RelRow) (hg : rel_get t c p q = some row)
    (hna : norm_status row.status ≠ "accepted")
    (hnp : norm_status row.status ≠ "pending") :
    rel_propose_or_accept t c p q now = (t, "invalid_state") := by
  simp only [rel_propose_or_accept, hg]
  rw [if_neg hna, if_pos hnp]

theorem rel_break_none (t : RelTable) (c u v : String) (hg : rel_get t c u v = none) :
    rel_break t c u v = (t, "missing") := by
  simp only [rel_break, hg]

theorem rel_break_accepted (t : RelTable) (c u v : String) (row : RelRow)
    (hg : rel_get t c u v = some row) (hst : norm_status row.status = "accepted") :
    rel_break t c u v = (rel_set t c (canon_pair u v).1 (canon_pair u v).2 none, "broken") := by
  simp only [rel_break, hg, hst]
  simp

theorem rel_break_pending (t : RelTable) (c u v : String) (row : RelRow)
    (hg : rel_get t c u v = some row) (hst : norm_status row.status = "pending") :
    rel_break t c u v =
      (rel_set t c (canon_pair u v).1 (canon_pair u v).2 none, "cancelled_pending") := by
  simp only [rel_break, hg, hst]
  simp

/-- C1: the propose-or-accept operation (the shared body of
Store.alliance_propose_or_accept and Store.nap_propose_or_accept) proceeds
by case analysis on the stored row for the canonical pair: if no row
exists it creates one with status pending and the proposer recorded and
returns proposed, so a second call by the same proposer returns
already_pending with no further row created and rows at every other key
are untouched; if a pending row exists and the caller is the original
proposer it returns already_pending with no mutation; if a pending row
exists and the caller is the other party it updates the row to accepted
and returns accepted; if the row is already accepted it returns
already_accepted with no mutation; any other stored status yields the
inconsistent-state result invalid_state; and both orientations of the
pair address the same single row. -/
theorem claim_c1 (t : RelTable) (c p q : String) (now now2 : Nat) :
    (rel_get t c p q = none →
      (rel_propose_or_accept t c p q now).2 = "proposed" ∧
      rel_get (rel_propose_or_accept t c p q now).1 c p q =
        some ⟨"pending", p, now, now⟩ ∧
      (rel_propose_or_accept (rel_propose_or_accept t c p q now).1 c p q now2).2 =
        "already_pending" ∧
      (∀ c' a' b', ¬ (c' = c ∧ a' = (canon_pair p q).1 ∧ b' = (canon_pair p q).2) →
        (rel_propose_or_accept t c p q now).1 c' a' b' = t c' a' b')) ∧
    (∀ row, rel_get t c p q = some row → norm_status row.status = "pending" →
      row.proposed_by = p →
      rel_propose_or_accept t c p q now = (t, "already_pending")) ∧
    (∀ row, rel_get t c p q = some row → norm_status row.status = "pending" →
      row.proposed_by ≠ p →
      (rel_propose_or_accept t c p q now).2 = "accepted" ∧
      rel_get (rel_propose_or_accept t c p q now).1 c p q =
        some { row with status := "accepted", updated_at := now }) ∧
    (∀ row, rel_get t c p q = some row → norm_status row.status = "accepted" →
      rel_propose_or_accept t c p q now = (t, "already_accepted")) ∧
    (∀ row, rel_get t c p q = some row → norm_status row.status ≠ "accepted" →
      norm_status row.status ≠ "pending" →
      rel_propose_or_accept t c p q now = (t, "invalid_state")) ∧
    rel_get t c p q = rel_get t c q p := by
  refine ⟨?_, ?_, ?_, ?_, ?_, rel_get_comm t c p q⟩
  · intro hg
    have h1 := rel_propose_none t c p q now hg
    have hrow : rel_get (rel_propose_or_accept t c p q now).1 c p q =
        some ⟨"pending", p, now, now⟩ := by
      rw [h1]
      exact rel_get_set_self t c p q _
    refine ⟨by rw [h1], hrow, ?_, ?_⟩
    · exact congrArg Prod.snd
        (rel_propose_pending_same _ c p q now2 ⟨"pending", p, now, now⟩ hrow
          norm_status_pending rfl)
    · intro c' a' b' hne
      rw [h1]
      exact rel_set_other t c _ _ _ c' a' b' hne
  · intro row hg hst hby
    exact rel_propose_pending_same t c p q now row hg hst hby
  · intro row hg hst hby
    have h1 := rel_propose_pending_other t c p q now row hg hst hby
    constructor
    · rw [h1]
    · rw [h1]
      exact rel_get_set_self t c p q _
  · intro row hg hst
    exact rel_propose_already_accepted t c p q now row hg hst
  · intro row hg hna hnp
    exact rel_propose_invalid t c p q now row hg hna hnp

theorem claim_c1_witness :
    (rel_propose_or_accept rel_empty "chan" "alice" "bob" 0).2 = "proposed" ∧
    (rel_propose_or_accept (rel_propose_or_accept rel_empty "chan" "alice" "bob" 0).1
      "chan" "alice" "bob" 1).2 = "already_pending" ∧
    (rel_propose_or_accept (rel_propose_or_accept rel_empty "chan" "alice" "bob" 0).1
      "chan" "bob" "alice" 1).2 = "accepted" := by
  obtain ⟨h1, _, _, _, _, _⟩ := claim_c1 rel_empty "chan" "alice" "bob" 0 1
  obtain ⟨hp, _, hap, _⟩ := h1 rfl
  refine ⟨hp, hap, ?_⟩
  obtain ⟨_, _, hacc, _, _, _⟩ :=
    claim_c1 (rel_propose_or_accept rel_empty "chan" "alice" "bob" 0).1 "chan" "bob" "alice" 1 2
  exact (hacc ⟨"pending", "alice", 0, 0⟩ (by decide) (by decide) (by decide)).1

theorem c3_table_wf : RelWF c3_table := by
  intro c a b row h
  unfold c3_table rel_set rel_empty at h
  split at h
  · cases h
    right
    rfl
  · simp at h

/-- C3: the break operation (the shared body of Store.alliance_break and
Store.nap_break) deletes the stored row whenever one is present, and over
well-formed tables (the invariant every reachable table satisfies) its
result is exactly one of three outcomes determined by the prior state:
broken if the row was accepted, cancelled_pending if it was pending, and
missing if no row existed. -/
theorem claim_c3 (t : RelTable) (hwf : RelWF t) (c u v : String) :
    rel_get (rel_break t c u v).1 c u v = none ∧
    ((rel_get t c u v = none ∧ (rel_break t c u v).2 = "missing" ∧
        (rel_break t c u v).1 = t) ∨
     (∃ row, rel_get t c u v = some row ∧ row.status = "accepted" ∧
        (rel_break t c u v).2 = "broken") ∨
     (∃ row, rel_get t c u v = some row ∧ row.status = "pending" ∧
        (rel_break t c u v).2 = "cancelled_pending")) := by
  cases hg : rel_get t c u v with
  | none =>
    have h1 := rel_break_none t c u v hg
    refine ⟨?_, Or.inl ⟨rfl, by rw [h1], by rw [h1]⟩⟩
    rw [h1]
    exact hg
  | some row =>
    have hrow : t c (canon_pair u v).1 (canon_pair u v).2 = some row := hg
    rcases hwf c _ _ row hrow with hp | ha
    · have hst : norm_status row.status = "pending" := by
        rw [hp]
        exact norm_status_pending
      have h1 := rel_break_pending t c u v row hg hst
      refine ⟨?_, Or.inr (Or.inr ⟨row, rfl, hp, by rw [h1]⟩)⟩
      rw [h1]
      exact rel_get_set_self t c u v none
    · have hst : norm_status row.status = "accepted" := by
        rw [ha]
        exact norm_status_accepted
      have h1 := rel_break_accepted t c u v row hg hst
      refine ⟨?_, Or.inr (Or.inl ⟨row, rfl, ha, by rw [h1]⟩)⟩
      rw [h1]
      exact rel_get_set_self t c u v none

theorem claim_c3_witness :
    (rel_break c3_table "chan" "alice" "bob").2 = "broken" ∧
    rel_get (rel_break c3_table "chan" "alice" "bob").1 "chan" "alice" "bob" = none := by
  have h := claim_c3 c3_table c3_table_wf "chan" "alice" "bob"
  refine ⟨?_, h.1⟩
  rcases h.2 with ⟨hnone, _, _⟩ | ⟨row, hrow, _, hres⟩ | ⟨row, hrow, hst, _⟩
  · exact absurd hnone (by decide)
  · exact hres
  · have hconc : rel_get c3_table "chan" "alice" "bob" =
        some ⟨"accepted", "alice", 0, 0⟩ := by decide
    rw [hconc] at hrow
    rw [(Option.some.inj hrow).symm] at hst
    exact absurd hst (by decide)

/-- C8, counterexample to the claim as stated: starting from the empty
table, proposing as alice then accepting as bob, versus proposing as bob
then accepting as alice, both yield the accepted result, but the two
resulting stored rows are not identical: the recorded proposer differs,
so the stored row does depend on which user initiated the first call. -/
theorem claim_c8_counterexample :
    (rel_propose_or_accept (rel_propose_or_accept rel_empty "chan" "alice" "bob" 0).1
      "chan" "bob" "alice" 1).2 = "accepted" ∧
    (rel_propose_or_accept (rel_propose_or_accept rel_empty "chan" "bob" "alice" 0).1
      "chan" "alice" "bob" 1).2 = "accepted" ∧
    rel_get (rel_propose_or_accept (rel_propose_or_accept rel_empty "chan" "alice" "bob" 0).1
        "chan" "bob" "alice" 1).1 "chan" "alice" "bob" ≠
      rel_get (rel_propose_or_accept (rel_propose_or_accept rel_empty "chan" "bob" "alice" 0).1
        "chan" "alice" "bob" 1).1 "chan" "alice" "bob" := by
  decide

/-- C8, amended: proposeOrAccept is commutative in outcome on the accepted
path: for distinct users with no stored row, either order of initiators
returns proposed then accepted, both orders lead to a row for the same
canonical key (both orientations read the same row) with status accepted
and with both timestamps equal, and the resulting rows agree except in the
proposed_by field, which records whichever user proposed first. -/
theorem claim_c8 (t : RelTable) (c a b : String) (n1 n2 : Nat)
    (hab : a ≠ b) (h0 : rel_get t c a b = none) :
    (rel_propose_or_accept t c a b n1).2 = "proposed" ∧
    (rel_propose_or_accept t c b a n1).2 = "proposed" ∧
    (rel_propose_or_accept (rel_propose_or_accept t c a b n1).1 c b a n2).2 = "accepted" ∧
    (rel_propose_or_accept (rel_propose_or_accept t c b a n1).1 c a b n2).2 = "accepted" ∧
    rel_get (rel_propose_or_accept (rel_propose_or_accept t c a b n1).1 c b a n2).1 c a b =
      some ⟨"accepted", a, n1, n2⟩ ∧
    rel_get (rel_propose_or_accept (rel_propose_or_accept t c b a n1).1 c a b n2).1 c a b =
      some ⟨"accepted", b, n1, n2⟩ ∧
    rel_get t c a b = rel_get t c b a := by
  have h0' : rel_get t c b a = none := by
    rw [rel_get_comm t c b a]
    exact h0
  have hab1 := rel_propose_none t c a b n1 h0
  have hba1 := rel_propose_none t c b a n1 h0'
  have hget_ab : rel_get (rel_propose_or_accept t c a b n1).1 c b a =
      some ⟨"pending", a, n1, n1⟩ := by
    rw [rel_get_comm _ c b a, hab1]
    exact rel_get_set_self t c a b _
  have hget_ba : rel_get (rel_propose_or_accept t c b a n1).1 c a b =
      some ⟨"pending", b, n1, n1⟩ := by
    rw [rel_get_comm _ c a b, hba1]
    exact rel_get_set_self t c b a _
  have hacc_ab := rel_propose_pending_other (rel_propose_or_accept t c a b n1).1 c b a n2
    ⟨"pending", a, n1, n1⟩ hget_ab norm_status_pending (by simpa using hab)
  have hacc_ba := rel_propose_pending_other (rel_propose_or_accept t c b a n1).1 c a b n2
    ⟨"pending", b, n1, n1⟩ hget_ba norm_status_pending (by simpa using fun h => hab h.symm)
  refine ⟨by rw [hab1], by rw [hba1], by rw [hacc_ab], by rw [hacc_ba], ?_, ?_,
    rel_get_comm t c a b⟩
  · rw [hacc_ab]
    rw [show (canon_pair b a) = canon_pair a b from canon_pair_comm b a,
      rel_get_set_self]
  · rw [hacc_ba]
    exact rel_get_set_self _ c a b _

theorem claim_c8_witness :
    (rel_propose_or_accept rel_empty "chan" "alice" "bob" 0).2 = "proposed" ∧
    (rel_propose_or_accept rel_empty "chan" "bob" "alice" 0).2 = "proposed" ∧
    (rel_propose_or_accept (rel_propose_or_accept rel_empty "chan" "alice" "bob" 0).1
      "chan" "bob" "alice" 1).2 = "accepted" ∧
    (rel_propose_or_accept (rel_propose_or_accept rel_empty "chan" "bob" "alice" 0).1
      "chan" "alice" "bob" 1).2 = "accepted" ∧
    rel_get (rel_propose_or_accept (rel_propose_or_accept rel_empty "chan" "alice" "bob" 0).1
      "chan" "bob" "alice" 1).1 "chan" "alice" "bob" = some ⟨"accepted", "alice", 0, 1⟩ ∧
    rel_get (rel_propose_or_accept (rel_propose_or_accept rel_empty "chan" "bob" "alice" 0).1
      "chan" "alice" "bob" 1).1 "chan" "alice" "bob" = some ⟨"accepted", "bob", 0, 1⟩ ∧
    rel_get rel_empty "chan" "alice" "bob" = rel_get rel_empty "chan" "bob" "alice" :=
  claim_c8 rel_empty "chan" "alice" "bob" 0 1 (by decide) rfl

/-- C4, counterexample to the claim as stated: inserting the first roll of
a user in a turn returns ordinal count 1, while the number of prior rolls
by that user in that turn, computed at insert time, is 0, so the returned
and displayed count does not equal the number of prior rolls. -/
theorem claim_c4_counterexample :
    (roll_add [] "chan" 0 "alice" "12345678901" "" "msg" 0).2 = 1 ∧
    (List.filter (roll_match "chan" 0 "alice") []).length = 0 := by
  decide

/-- C4, amended: the ordinal count returned by roll_add (the value
cmd_roll displays as the roll number) equals the number of prior rolls by
that user in that turn, computed at insert time, plus one: the count
includes the roll just inserted. -/
theorem claim_c4 (rolls : List RollRow) (channel_id : String) (turn_number : Nat)
    (user_id roll_value order_text message_id : String) (now : Nat) :
    (roll_add rolls channel_id turn_number user_id roll_value order_text message_id now).2 =
      (rolls.filter (roll_match channel_id turn_number user_id)).length + 1 := by
  simp [roll_add, roll_match, List.filter_append]

theorem request_json_loop_fuel (responses : Nat → RestResponse) :
    ∀ fuel attempt, (request_json_loop responses fuel attempt).2.1 ≤ fuel := by
  intro fuel
  induction fuel with
  | zero =>
    intro attempt
    exact Nat.le_refl 0
  | succ fuel ih =>
    intro attempt
    simp only [request_json_loop]
    by_cases h : (responses attempt).status ≠ 429
    · rw [if_pos h]
      exact Nat.succ_le_succ (Nat.zero_le fuel)
    · rw [if_neg h]
      exact Nat.succ_le_succ (ih (attempt + 1))

theorem retry_sleep_range_shift (responses : Nat → RestResponse) (attempt k : Nat) :
    (List.range (k + 1)).map (fun j => retry_sleep (responses (attempt + j)) (attempt + j)) =
      retry_sleep (responses attempt) attempt ::
        (List.range k).map (fun j => retry_sleep (responses (attempt + 1 + j)) (attempt + 1 + j)) := by
  rw [List.range_succ_eq_map, List.map_cons, List.map_map]
  simp only [Nat.add_zero]
  congr 1
  apply List.map_congr_left
  intro a _
  simp only [Function.comp_apply]
  have e : attempt + Nat.succ a = attempt + 1 + a := by omega
  rw [e]

theorem request_json_loop_success (responses : Nat → RestResponse) (k : Nat) :
    ∀ fuel attempt, k < fuel →
    (∀ j, j < k → (responses (attempt + j)).status = 429) →
    (responses (attempt + k)).status ≠ 429 →
    request_json_loop responses fuel attempt =
      ((responses (attempt + k)).status, k + 1,
        (List.range k).map (fun j => retry_sleep (responses (attempt + j)) (attempt + j))) := by
  induction k with
  | zero =>
    intro fuel attempt hk h429 hs
    obtain ⟨fuel, rfl⟩ : ∃ f, fuel = f + 1 := ⟨fuel - 1, by omega⟩
    simp only [request_json_loop]
    rw [if_pos (by simpa using hs)]
    simp
  | succ k ih =>
    intro fuel attempt hk h429 hs
    obtain ⟨fuel, rfl⟩ : ∃ f, fuel = f + 1 := ⟨fuel - 1, by omega⟩
    have h0 : (responses attempt).status = 429 := by
      simpa using h429 0 (Nat.succ_pos k)
    simp only [request_json_loop]
    rw [if_neg (by simp [h0])]
    have ih2 := ih fuel (attempt + 1) (by omega)
      (fun j hj => by
        have hh := h429 (j + 1) (by omega)
        have e : attempt + (j + 1) = attempt + 1 + j := by omega
        rw [e] at hh
        exact hh)
      (by
        have e : attempt + (k + 1) = attempt + 1 + k := by omega
        rw [e] at hs
        exact hs)
    rw [ih2, retry_sleep_range_shift]
    have e : attempt + 1 + k = attempt + (k + 1) := by omega
    rw [e]

theorem request_json_loop_exhaust (responses : Nat → RestResponse) :
    ∀ fuel attempt,
    (∀ j, j < fuel → (responses (attempt + j)).status = 429) →
    request_json_loop responses fuel attempt =
      (429, fuel,
        (List.range fuel).map (fun j => retry_sleep (responses (attempt + j)) (attempt + j))) := by
  intro fuel
  induction fuel with
  | zero =>
    intro attempt h
    simp [request_json_loop]
  | succ fuel ih =>
    intro attempt h
    have h0 : (responses attempt).status = 429 := by
      simpa using h 0 (Nat.succ_pos fuel)
    simp only [request_json_loop]
    rw [if_neg (by simp [h0])]
    rw [ih (attempt + 1) (fun j hj => by
      have hh := h (j + 1) (by omega)
      have e : attempt + (j + 1) = attempt + 1 + j := by omega
      rw [e] at hh
      exact hh)]
    rw [retry_sleep_range_shift]

/-- C9: request_json makes at most 5 attempts; when the first non-429
response occurs at attempt k it is returned immediately to the caller
with exactly k+1 requests made and one sleep per preceding 429, each
sleep being the server-supplied retry_after delay when present and
positive and the incrementing fallback delay otherwise; when all five
attempts see 429 the call gives up with status 429 after exactly five
requests and five such sleeps. -/
theorem claim_c9 (responses : Nat → RestResponse) :
    (request_json responses).2.1 ≤ 5 ∧
    (∀ k, k < 5 → (∀ j, j < k → (responses j).status = 429) →
      (responses k).status ≠ 429 →
      request_json responses =
        ((responses k).status, k + 1,
          (List.range k).map (fun j => retry_sleep (responses j) j))) ∧
    ((∀ j, j < 5 → (responses j).status = 429) →
      request_json responses =
        (429, 5, (List.range 5).map (fun j => retry_sleep (responses j) j))) := by
  refine ⟨request_json_loop_fuel responses 5 0, ?_, ?_⟩
  · intro k hk h429 hs
    have h := request_json_loop_success responses k 5 0 hk
      (fun j hj => by simpa using h429 j hj)
      (by simpa using hs)
    simpa [request_json] using h
  · intro h
    have h2 := request_json_loop_exhaust responses 5 0 (fun j hj => by simpa using h j hj)
    simpa [request_json] using h2

theorem claim_c9_witness :
    request_json c9_responses = (200, 2, [RetrySleep.server 500]) := by
  obtain ⟨_, h2, _⟩ := claim_c9 c9_responses
  have h := h2 1 (by decide) (by decide) (by decide)
  rw [h]
  decide

/-- C2, counterexample to the claim as stated: with a single-turn session
(current turn 0) and a tracked game browser showing turn 0, a forward
reaction computes the same (turn, page) pair; the handler indeed performs
no re-render or edit, but the stored browser record is not left entirely
unchanged: its last-activity timestamp is refreshed to the reaction time
(nav_touch runs before the no-op check). -/
theorem claim_c2_counterexample :
    (handle_nav_react nav_demo_state (some "bot") "m" "chan" "alice" "👉" 5 true).2 =
      [NavEffect.scheduleExpiry "chan" "m"] ∧
    nav_get (handle_nav_react nav_demo_state (some "bot") "m" "chan" "alice" "👉" 5
      true).1.navs "m" = some ⟨"chan", 0, 0, "game", 0, 5⟩ ∧
    nav_get nav_demo_state.navs "m" = some ⟨"chan", 0, 0, "game", 0, 0⟩ := by
  decide

/-- C2, amended: for every tracked, unexpired browser, a recognised
reaction from a non-bot user whose computed new (turn, page) pair equals
the displayed pair produces no re-render and no edit of the message and
leaves the displayed turn and page unchanged, but it does refresh the
browser record: the last-activity timestamp is set to the reaction time
and the expiry supervisor is restarted. -/
theorem claim_c2 (st : NavState) (bot_user : Option String)
    (msg_id channel_id user_id emoji_id : String) (now : Nat) (edit_ok : Bool)
    (nav : NavRow) (game : GameRow)
    (hbot : bot_user ≠ some user_id)
    (hnav : nav_get st.navs msg_id = some nav)
    (hfresh : ¬ now - nav.updated_at > 30)
    (hgame : st.games channel_id = some game)
    (htr : nav_transition st.events channel_id (nav_view_type nav) game.turn_number
      nav.displayed_turn nav.displayed_page emoji_id =
      some (nav.displayed_turn, nav.displayed_page)) :
    handle_nav_react st bot_user msg_id channel_id user_id emoji_id now edit_ok =
      ({ st with navs := nav_touch st.navs msg_id now },
        [NavEffect.scheduleExpiry channel_id msg_id]) ∧
    nav_get (handle_nav_react st bot_user msg_id channel_id user_id emoji_id now
      edit_ok).1.navs msg_id = some { nav with updated_at := now } := by
  have h1 : handle_nav_react st bot_user msg_id channel_id user_id emoji_id now edit_ok =
      ({ st with navs := nav_touch st.navs msg_id now },
        [NavEffect.scheduleExpiry channel_id msg_id]) := by
    simp only [handle_nav_react, hnav, hgame, htr, if_neg hbot, if_neg hfresh]
    simp
  refine ⟨h1, ?_⟩
  rw [h1]
  simp only [nav_get, nav_touch]
  rw [if_pos trivial, show st.navs msg_id = some nav from hnav]
  rfl

theorem claim_c2_witness :
    handle_nav_react nav_demo_state (some "bot") "m" "chan" "alice" "👉" 5 true =
      ({ nav_demo_state with navs := nav_touch nav_demo_state.navs "m" 5 },
        [NavEffect.scheduleExpiry "chan" "m"]) ∧
    nav_get (handle_nav_react nav_demo_state (some "bot") "m" "chan" "alice" "👉" 5
      true).1.navs "m" = some ⟨"chan", 0, 0, "game", 0, 5⟩ := by
  have h := claim_c2 nav_demo_state (some "bot") "m" "chan" "alice" "👉" 5 true
    ⟨"chan", 0, 0, "game", 0, 0⟩ ⟨"op", 0, "m0", none, none, 0⟩
    (by decide) rfl (by decide) rfl (by decide)
  exact ⟨h.1, h.2⟩

/-- C5: the navigation transition on a recognised reaction from a non-bot
user: forward sets the displayed turn to 0 when it is at or past the live
current turn and to turn+1 otherwise; back sets the turn to the live
current turn when it is at 0 and to turn-1 otherwise; next-page,
recognised only on events browsers, leaves the turn unchanged and wraps
the page to 0 from the last page, advancing by one otherwise; forward and
back reset the page to 0 exactly on events browsers; hence on a
single-turn session (current turn 0) forward from turn 0 yields turn 0,
and on a two-turn session (current turn 1) forward from turn 1 yields
turn 0. -/
theorem claim_c5 (events : List EventRow) (channel_id view_type : String)
    (current_turn shown_turn shown_page : Nat) (emoji_id : String) :
    (emoji_is_fwd emoji_id = true →
      nav_transition events channel_id view_type current_turn shown_turn shown_page emoji_id =
        some (if current_turn ≤ shown_turn then 0 else shown_turn + 1,
          if view_type = "events" then 0 else shown_page)) ∧
    (emoji_is_fwd emoji_id = false → emoji_is_back emoji_id = true →
      nav_transition events channel_id view_type current_turn shown_turn shown_page emoji_id =
        some (if shown_turn = 0 then current_turn else shown_turn - 1,
          if view_type = "events" then 0 else shown_page)) ∧
    (emoji_is_fwd emoji_id = false → emoji_is_back emoji_id = false →
      emoji_is_page emoji_id = true → view_type = "events" →
      shown_page < events_page_count events channel_id shown_turn 15 →
      nav_transition events channel_id view_type current_turn shown_turn shown_page emoji_id =
        some (shown_turn,
          if shown_page = events_page_count events channel_id shown_turn 15 - 1 then 0
          else shown_page + 1)) ∧
    (emoji_is_fwd emoji_id = true → current_turn = 0 → shown_turn = 0 →
      (nav_transition events channel_id view_type current_turn shown_turn shown_page
        emoji_id).map Prod.fst = some 0) ∧
    (emoji_is_fwd emoji_id = true → current_turn = 1 → shown_turn = 1 →
      (nav_transition events channel_id view_type current_turn shown_turn shown_page
        emoji_id).map Prod.fst = some 0) := by
  have hfwd : emoji_is_fwd emoji_id = true →
      nav_transition events channel_id view_type current_turn shown_turn shown_page emoji_id =
        some (if current_turn ≤ shown_turn then 0 else shown_turn + 1,
          if view_type = "events" then 0 else shown_page) := by
    intro h
    simp [nav_transition, h, ge_iff_le]
  refine ⟨hfwd, ?_, ?_, ?_, ?_⟩
  · intro h1 h2
    simp [nav_transition, h1, h2, Nat.le_zero]
  · intro h1 h2 h3 h4 h5
    simp only [nav_transition, h1, h2, h3, h4, Bool.false_eq_true, if_false,
      beq_self_eq_true, Bool.and_self, if_true]
    by_cases hge : shown_page + 1 ≥ events_page_count events channel_id shown_turn 15
    · rw [if_pos hge, if_pos (by omega)]
    · rw [if_neg hge, if_neg (by omega)]
  · intro h hc hs
    rw [hfwd h, hc, hs]
    simp
  · intro h hc hs
    rw [hfwd h, hc, hs]
    simp

theorem claim_c5_witness :
    nav_transition [] "chan" "game" 0 0 0 "👉" = some (0, 0) ∧
    nav_transition [] "chan" "game" 1 1 0 "👉" = some (0, 0) ∧
    nav_transition [] "chan" "game" 3 0 0 "👈" = some (3, 0) := by
  obtain ⟨h1, _, _, _, _⟩ := claim_c5 [] "chan" "game" 0 0 0 "👉"
  obtain ⟨h2, _, _, _, _⟩ := claim_c5 [] "chan" "game" 1 1 0 "👉"
  obtain ⟨_, h3, _, _, _⟩ := claim_c5 [] "chan" "game" 3 0 0 "👈"
  refine ⟨?_, ?_, ?_⟩
  · rw [h1 (by decide)]
    decide
  · rw [h2 (by decide)]
    decide
  · rw [h3 (by decide) (by decide)]
    decide

/-- C10: a reaction from a non-bot user on a message whose browser record
still exists but whose last-activity timestamp is more than 30 seconds in
the past makes the handler itself clear all reactions from the message
and delete the browser record, performing no navigation, no re-render or
edit, and no activity refresh: the state changes only by the deletion of
that record, whatever the glyph, so a late reaction retires the browser
inline before its expiry supervisor fires. -/
theorem claim_c10 (st : NavState) (bot_user : Option String)
    (msg_id channel_id user_id emoji_id : String) (now : Nat) (edit_ok : Bool)
    (nav : NavRow)
    (hbot : bot_user ≠ some user_id)
    (hnav : nav_get st.navs msg_id = some nav)
    (hexp : now - nav.updated_at > 30) :
    handle_nav_react st bot_user msg_id channel_id user_id emoji_id now edit_ok =
      ({ st with navs := nav_delete st.navs msg_id },
        [NavEffect.clearReactions channel_id msg_id]) ∧
    nav_get (nav_delete st.navs msg_id) msg_id = none ∧
    (∀ m, m ≠ msg_id → nav_delete st.navs msg_id m = st.navs m) := by
  refine ⟨?_, ?_, ?_⟩
  · simp only [handle_nav_react, hnav, if_neg hbot, if_pos hexp]
  · simp [nav_get, nav_delete]
  · intro m hm
    simp [nav_delete, hm]

theorem claim_c10_witness :
    handle_nav_react nav_demo_state (some "bot") "m" "chan" "alice" "🤜" 100 true =
      ({ nav_demo_state with navs := nav_delete nav_demo_state.navs "m" },
        [NavEffect.clearReactions "chan" "m"]) ∧
    nav_get (nav_delete nav_demo_state.navs "m") "m" = none := by
  have h := claim_c10 nav_demo_state (some "bot") "m" "chan" "alice" "🤜" 100 true
    ⟨"chan", 0, 0, "game", 0, 0⟩ (by decide) rfl (by decide)
  exact ⟨h.1, h.2.1⟩

theorem isEmpty_false_of_ne_nil {α : Type} {l : List α} (h : l ≠ []) :
    l.isEmpty = false := by
  cases l with
  | nil => exact absurd rfl h
  | cons a t => rfl

theorem turnmap_get_upsert_self :
    ∀ (tms : List (Nat × TurnMapRow)) (turn : Nat) (row : TurnMapRow),
    turnmap_get_list (turnmap_upsert_list tms turn row) turn = some row
  | [], turn, row => by
    simp [turnmap_upsert_list, turnmap_get_list]
  | p :: rest, turn, row => by
    unfold turnmap_upsert_list
    cases hb : (p.1 == turn) with
    | true =>
      rw [if_pos rfl]
      simp [turnmap_get_list]
    | false =>
      rw [if_neg (by simp)]
      simp only [turnmap_get_list, List.find?_cons, hb]
      exact turnmap_get_upsert_self rest turn row

theorem turnmap_get_upsert_other :
    ∀ (tms : List (Nat × TurnMapRow)) (turn t2 : Nat) (row : TurnMapRow),
    t2 ≠ turn →
    turnmap_get_list (turnmap_upsert_list tms turn row) t2 = turnmap_get_list tms t2
  | [], turn, t2, row, h => by
    have hb : (turn == t2) = false := beq_eq_false_iff_ne.mpr (Ne.symm h)
    simp [turnmap_upsert_list, turnmap_get_list, List.find?_cons, hb]
  | p :: rest, turn, t2, row, h => by
    unfold turnmap_upsert_list
    cases hb : (p.1 == turn) with
    | true =>
      rw [if_pos rfl]
      have hpt : p.1 = turn := by simpa using hb
      have hb2 : (turn == t2) = false := beq_eq_false_iff_ne.mpr (Ne.symm h)
      have hb3 : (p.1 == t2) = false := by
        rw [hpt]
        exact hb2
      simp only [turnmap_get_list, List.find?_cons, hb2, hb3]
    | false =>
      rw [if_neg (by simp)]
      cases hb2 : (p.1 == t2) with
      | true => simp only [turnmap_get_list, List.find?_cons, hb2]
      | false =>
        simp only [turnmap_get_list, List.find?_cons, hb2]
        exact turnmap_get_upsert_other rest turn t2 row h

theorem game_inc_turn_eq (s : Store) (channel_id : String) (game : GameRow)
    (hg : game_get s channel_id = some game) :
    (game_inc_turn s channel_id).2 = game.turn_number + 1 ∧
    (game_inc_turn s channel_id).1.turnmaps = s.turnmaps ∧
    (game_inc_turn s channel_id).1.players = s.players ∧
    (game_inc_turn s channel_id).1.turnplayers = s.turnplayers ∧
    game_get (game_inc_turn s channel_id).1 channel_id =
      some { game with turn_number := game.turn_number + 1 } := by
  have hg2 : s.games channel_id = some game := hg
  refine ⟨?_, rfl, rfl, rfl, ?_⟩
  · simp [game_inc_turn, hg2]
  · simp [game_inc_turn, game_get, hg2]

theorem cmd_mup_carry (s : Store) (channel_id author_id msg_id note : String)
    (now : Nat) (game : GameRow) (tp : Nat) (prev : TurnMapRow) (a f : String)
    (hg : game_get s channel_id = some game) (hop : author_id = game.op_user_id)
    (hlatest : turnmap_latest_list (s.turnmaps channel_id) = some (tp, prev))
    (hatt : prev.map_attachment_id = some a) (hfn : prev.map_filename = some f) :
    (cmd_mup s channel_id author_id msg_id none note now).2 =
      some (game.turn_number + 1) ∧
    (cmd_mup s channel_id author_id msg_id none note now).1.turnmaps channel_id =
      turnmap_upsert_list (s.turnmaps channel_id) (game.turn_number + 1)
        ⟨msg_id, some a, some f, now⟩ := by
  subst hop
  have hg2 : s.games channel_id = some game := hg
  constructor <;>
    simp [cmd_mup, hg, hg2, hlatest, hatt, hfn, game_inc_turn, turnmap_upsert,
      game_set_map, turnplayers_replace_from_current, event_add]

theorem cmd_mup_carry_nomap (s : Store) (channel_id author_id msg_id note : String)
    (now : Nat) (game : GameRow) (tp : Nat) (prev : TurnMapRow)
    (hg : game_get s channel_id = some game) (hop : author_id = game.op_user_id)
    (hlatest : turnmap_latest_list (s.turnmaps channel_id) = some (tp, prev))
    (hatt : prev.map_attachment_id = none) (hfn : prev.map_filename = none) :
    (cmd_mup s channel_id author_id msg_id none note now).2 =
      some (game.turn_number + 1) ∧
    (cmd_mup s channel_id author_id msg_id none note now).1.turnmaps channel_id =
      turnmap_upsert_list (s.turnmaps channel_id) (game.turn_number + 1)
        ⟨msg_id, none, none, now⟩ := by
  subst hop
  have hg2 : s.games channel_id = some game := hg
  constructor <;>
    simp [cmd_mup, hg, hg2, hlatest, hatt, hfn, game_inc_turn, turnmap_upsert,
      game_set_map, turnplayers_replace_from_current, event_add]

theorem cmd_mup_attach (s : Store) (channel_id author_id msg_id note : String)
    (now : Nat) (game : GameRow) (a f : String)
    (hg : game_get s channel_id = some game) (hop : author_id = game.op_user_id) :
    (cmd_mup s channel_id author_id msg_id (some (a, f)) note now).2 =
      some (game.turn_number + 1) ∧
    (cmd_mup s channel_id author_id msg_id (some (a, f)) note now).1.turnmaps channel_id =
      turnmap_upsert_list (s.turnmaps channel_id) (game.turn_number + 1)
        ⟨msg_id, some a, some f, now⟩ := by
  subst hop
  have hg2 : s.games channel_id = some game := hg
  constructor <;>
    simp [cmd_mup, hg, hg2, game_inc_turn, turnmap_upsert,
      game_set_map, turnplayers_replace_from_current, event_add]

theorem cmd_mup_components (s : Store) (channel_id author_id msg_id : String)
    (attachment : Option (String × String)) (note : String) (now : Nat)
    (game : GameRow) (hg : game_get s channel_id = some game)
    (hop : author_id = game.op_user_id) :
    (cmd_mup s channel_id author_id msg_id attachment note now).2 =
      some (game.turn_number + 1) ∧
    (cmd_mup s channel_id author_id msg_id attachment note now).1.turnplayers channel_id
      (game.turn_number + 1) = s.players channel_id ∧
    game_get (cmd_mup s channel_id author_id msg_id attachment note now).1 channel_id ≠
      none ∧
    (∃ row,
      (cmd_mup s channel_id author_id msg_id attachment note now).1.turnmaps channel_id =
        turnmap_upsert_list (s.turnmaps channel_id) (game.turn_number + 1) row) := by
  subst hop
  have hg2 : s.games channel_id = some game := hg
  rcases attachment with _ | ⟨a, f⟩
  · rcases hl : turnmap_latest_list (s.turnmaps channel_id) with _ | ⟨tp, prev⟩
    · refine ⟨?_, ?_, ?_, ⟨⟨msg_id, none, none, now⟩, ?_⟩⟩ <;>
        simp [cmd_mup, hg, hg2, hl, game_inc_turn, game_get, turnmap_upsert,
          game_set_map, turnplayers_replace_from_current, event_add]
    · rcases hatt : prev.map_attachment_id with _ | a
      · refine ⟨?_, ?_, ?_, ⟨⟨msg_id, none, none, now⟩, ?_⟩⟩ <;>
          simp [cmd_mup, hg, hg2, hl, hatt, game_inc_turn, game_get, turnmap_upsert,
            game_set_map, turnplayers_replace_from_current, event_add]
      · rcases hfn : prev.map_filename with _ | f
        · refine ⟨?_, ?_, ?_, ⟨⟨msg_id, none, none, now⟩, ?_⟩⟩ <;>
            simp [cmd_mup, hg, hg2, hl, hatt, hfn, game_inc_turn, game_get,
              turnmap_upsert, game_set_map, turnplayers_replace_from_current, event_add]
        · refine ⟨?_, ?_, ?_, ⟨⟨msg_id, some a, some f, now⟩, ?_⟩⟩ <;>
            simp [cmd_mup, hg, hg2, hl, hatt, hfn, game_inc_turn, game_get,
              turnmap_upsert, game_set_map, turnplayers_replace_from_current, event_add]
  · refine ⟨?_, ?_, ?_, ⟨⟨msg_id, some a, some f, now⟩, ?_⟩⟩ <;>
      simp [cmd_mup, hg, hg2, game_inc_turn, game_get, turnmap_upsert,
        game_set_map, turnplayers_replace_from_current, event_add]

/-- C6: advancing a turn with cmd_mup and no attached image records for
the new turn a map reference whose attachment id and filename are
identical to those of the latest prior turn map (under the store shape
every reachable turn map has: the attachment id and filename are both
present or both absent); advancing with an attached asset records exactly
that asset for the new turn; in both cases the map references of every
other turn are left unchanged. -/
theorem claim_c6 (s : Store) (channel_id author_id msg_id note : String) (now : Nat)
    (game : GameRow) (hg : game_get s channel_id = some game)
    (hop : author_id = game.op_user_id) :
    (∀ tp prev, turnmap_latest_list (s.turnmaps channel_id) = some (tp, prev) →
      ((prev.map_attachment_id = none ∧ prev.map_filename = none) ∨
        (∃ a f, prev.map_attachment_id = some a ∧ prev.map_filename = some f)) →
      (cmd_mup s channel_id author_id msg_id none note now).2 =
        some (game.turn_number + 1) ∧
      turnmap_get_list
        ((cmd_mup s channel_id author_id msg_id none note now).1.turnmaps channel_id)
        (game.turn_number + 1) =
        some ⟨msg_id, prev.map_attachment_id, prev.map_filename, now⟩) ∧
    (∀ a f,
      (cmd_mup s channel_id author_id msg_id (some (a, f)) note now).2 =
        some (game.turn_number + 1) ∧
      turnmap_get_list
        ((cmd_mup s channel_id author_id msg_id (some (a, f)) note now).1.turnmaps
          channel_id) (game.turn_number + 1) = some ⟨msg_id, some a, some f, now⟩) ∧
    (∀ attachment t2, t2 ≠ game.turn_number + 1 →
      turnmap_get_list
        ((cmd_mup s channel_id author_id msg_id attachment note now).1.turnmaps channel_id)
        t2 = turnmap_get_list (s.turnmaps channel_id) t2) := by
  refine ⟨?_, ?_, ?_⟩
  · intro tp prev hlatest hopt
    rcases hopt with ⟨h1, h2⟩ | ⟨a, f, h1, h2⟩
    · have hc := cmd_mup_carry_nomap s channel_id author_id msg_id note now game tp prev
        hg hop hlatest h1 h2
      refine ⟨hc.1, ?_⟩
      rw [hc.2, h1, h2]
      exact turnmap_get_upsert_self (s.turnmaps channel_id) (game.turn_number + 1) _
    · have hc := cmd_mup_carry s channel_id author_id msg_id note now game tp prev a f
        hg hop hlatest h1 h2
      refine ⟨hc.1, ?_⟩
      rw [hc.2, h1, h2]
      exact turnmap_get_upsert_self (s.turnmaps channel_id) (game.turn_number + 1) _
  · intro a f
    have hc := cmd_mup_attach s channel_id author_id msg_id note now game a f hg hop
    refine ⟨hc.1, ?_⟩
    rw [hc.2]
    exact turnmap_get_upsert_self (s.turnmaps channel_id) (game.turn_number + 1) _
  · intro attachment t2 ht2
    obtain ⟨row, hrow⟩ :=
      (cmd_mup_components s channel_id author_id msg_id attachment note now game
        hg hop).2.2.2
    rw [hrow]
    exact turnmap_get_upsert_other (s.turnmaps channel_id) (game.turn_number + 1) t2 row ht2

theorem claim_c6_witness :
    (cmd_mup store0 "chan" "op" "m1" none "" 5).2 = some 1 ∧
    turnmap_get_list ((cmd_mup store0 "chan" "op" "m1" none "" 5).1.turnmaps "chan") 1 =
      some ⟨"m1", some "att0", some "map.png", 5⟩ ∧
    turnmap_get_list ((cmd_mup store0 "chan" "op" "m1" none "" 5).1.turnmaps "chan") 0 =
      turnmap_get_list (store0.turnmaps "chan") 0 := by
  have h := claim_c6 store0 "chan" "op" "m1" "" 5
    ⟨"op", 0, "m0", some "att0", some "map.png", 0⟩ (by decide) rfl
  obtain ⟨h1, _, h3⟩ := h
  have hcall := h1 0 ⟨"m0", some "att0", some "map.png", 0⟩ (by decide)
    (Or.inr ⟨"att0", "map.png", rfl, rfl⟩)
  exact ⟨hcall.1, hcall.2, h3 none 0 (by decide)⟩

theorem player_add_games (s : Store) (c u n : String) (now : Nat) :
    (player_add_or_update s c u n now).1.games = s.games := by
  unfold player_add_or_update
  dsimp only
  split <;> rfl

theorem player_add_turnplayers (s : Store) (c u n : String) (now : Nat) :
    (player_add_or_update s c u n now).1.turnplayers = s.turnplayers := by
  unfold player_add_or_update
  dsimp only
  split <;> rfl

theorem player_add_ne_nil (s : Store) (c u n : String) (now : Nat) :
    (player_add_or_update s c u n now).1.players c ≠ [] := by
  unfold player_add_or_update
  dsimp only
  by_cases h : (s.players c).any (fun p => p.1 == u) = true
  · rw [if_pos h]
    dsimp only
    rw [if_pos rfl]
    intro hnil
    rw [List.map_eq_nil_iff] at hnil
    rw [hnil] at h
    simp at h
  · rw [if_neg h]
    dsimp only
    rw [if_pos rfl]
    simp

theorem cmd_join_games (s : Store) (channel_id author_id msg_id args : String)
    (now : Nat) :
    (cmd_join s channel_id author_id msg_id args now).games = s.games := by
  unfold cmd_join
  cases game_get s channel_id with
  | none => rfl
  | some game =>
    dsimp only
    split
    · exact player_add_games s channel_id author_id (norm_name args) now
    · exact player_add_games s channel_id author_id (norm_name args) now

theorem cmd_join_turnplayers (s : Store) (channel_id author_id msg_id args : String)
    (now : Nat) (game : GameRow) (hg : game_get s channel_id = some game)
    (c : String) (t : Nat) (h : ¬ (c = channel_id ∧ t = game.turn_number)) :
    (cmd_join s channel_id author_id msg_id args now).turnplayers c t =
      s.turnplayers c t := by
  unfold cmd_join
  rw [hg]
  dsimp only
  have hrepl : ∀ s3 : Store,
      (turnplayers_replace_from_current s3 channel_id game.turn_number).turnplayers c t =
        s3.turnplayers c t := by
    intro s3
    simp only [turnplayers_replace_from_current]
    rw [if_neg h]
  split
  · exact (hrepl _).trans
      (congrFun (congrFun (player_add_turnplayers s channel_id author_id
        (norm_name args) now) c) t)
  · exact (hrepl _).trans
      (congrFun (congrFun (player_add_turnplayers s channel_id author_id
        (norm_name args) now) c) t)

theorem cmd_join_players (s : Store) (channel_id author_id msg_id args : String)
    (now : Nat) (game : GameRow) (hg : game_get s channel_id = some game) :
    (cmd_join s channel_id author_id msg_id args now).players =
      (player_add_or_update s channel_id author_id (norm_name args) now).1.players := by
  unfold cmd_join
  rw [hg]
  dsimp only
  split <;> rfl

theorem cmd_quit_games (s : Store) (channel_id author_id msg_id : String) (now : Nat) :
    (cmd_quit s channel_id author_id msg_id now).games = s.games := by
  unfold cmd_quit
  cases game_get s channel_id with
  | none => rfl
  | some game =>
    dsimp only
    split <;> rfl

theorem cmd_quit_turnplayers (s : Store) (channel_id author_id msg_id : String)
    (now : Nat) (game : GameRow) (hg : game_get s channel_id = some game)
    (c : String) (t : Nat) (h : ¬ (c = channel_id ∧ t = game.turn_number)) :
    (cmd_quit s channel_id author_id msg_id now).turnplayers c t =
      s.turnplayers c t := by
  unfold cmd_quit
  rw [hg]
  dsimp only
  split
  · show (turnplayers_replace_from_current (player_remove s channel_id author_id).1
      channel_id game.turn_number).turnplayers c t = s.turnplayers c t
    simp only [turnplayers_replace_from_current]
    rw [if_neg h]
    rfl
  · rfl

/-- C7, counterexample to the claim as stated: with turn 0 current and
already snapshotted (holding alice as Alice), a rename of alice to Bob (a
live-roster change through cmd_join) does alter the roster shown by the
game view render for turn 0, because cmd_join re-snapshots the current
turn. -/
theorem claim_c7_counterexample :
    turnplayers_for_turn store_joined "chan" 0 = [("alice", ⟨"Alice", 1⟩)] ∧
    render_turn_view_roster store_joined "chan" 0 = some [("alice", ⟨"Alice", 1⟩)] ∧
    render_turn_view_roster store_renamed "chan" 0 = some [("alice", ⟨"Bob", 1⟩)] ∧
    render_turn_view_roster store_renamed "chan" 0 ≠
      render_turn_view_roster store_joined "chan" 0 := by
  decide

/-- C7, amended: a live-roster change (join, rename, or quit) leaves the
roster shown by the game view render unchanged for every snapshotted turn
other than the session's current turn (a change at the current turn
re-snapshots that turn, whose render therefore reflects it immediately);
and after the next turn advance, the snapshot and the rendered roster of
the new turn equal the changed live roster. -/
theorem claim_c7 (s : Store) (channel_id author_id msg_id args : String) (now : Nat)
    (turn0 : Nat) (game : GameRow)
    (hg : game_get s channel_id = some game)
    (hT : turn0 ≠ game.turn_number)
    (hsnap : turnplayers_for_turn s channel_id turn0 ≠ []) :
    render_turn_view_roster (cmd_join s channel_id author_id msg_id args now)
      channel_id turn0 = render_turn_view_roster s channel_id turn0 ∧
    render_turn_view_roster (cmd_quit s channel_id author_id msg_id now)
      channel_id turn0 = render_turn_view_roster s channel_id turn0 ∧
    (∀ attachment note,
      turnplayers_for_turn
        (cmd_mup (cmd_join s channel_id author_id msg_id args now) channel_id
          game.op_user_id msg_id attachment note now).1 channel_id
        (game.turn_number + 1) =
        (cmd_join s channel_id author_id msg_id args now).players channel_id ∧
      render_turn_view_roster
        (cmd_mup (cmd_join s channel_id author_id msg_id args now) channel_id
          game.op_user_id msg_id attachment note now).1 channel_id
        (game.turn_number + 1) =
        some ((cmd_join s channel_id author_id msg_id args now).players channel_id)) := by
  have hne_empty : (turnplayers_for_turn s channel_id turn0).isEmpty = false :=
    isEmpty_false_of_ne_nil hsnap
  have hjg : game_get (cmd_join s channel_id author_id msg_id args now) channel_id =
      some game := by
    show (cmd_join s channel_id author_id msg_id args now).games channel_id = some game
    rw [congrFun (cmd_join_games s channel_id author_id msg_id args now) channel_id]
    exact hg
  refine ⟨?_, ?_, ?_⟩
  · have hjt : turnplayers_for_turn (cmd_join s channel_id author_id msg_id args now)
        channel_id turn0 = turnplayers_for_turn s channel_id turn0 :=
      cmd_join_turnplayers s channel_id author_id msg_id args now game hg channel_id
        turn0 (fun hh => hT hh.2)
    simp only [render_turn_view_roster, hjg, hg, hjt, turnplayers_for_turn] at *
    simp [hjt, hne_empty]
  · have hqg : game_get (cmd_quit s channel_id author_id msg_id now) channel_id =
        some game := by
      show (cmd_quit s channel_id author_id msg_id now).games channel_id = some game
      rw [congrFun (cmd_quit_games s channel_id author_id msg_id now) channel_id]
      exact hg
    have hqt : turnplayers_for_turn (cmd_quit s channel_id author_id msg_id now)
        channel_id turn0 = turnplayers_for_turn s channel_id turn0 :=
      cmd_quit_turnplayers s channel_id author_id msg_id now game hg channel_id
        turn0 (fun hh => hT hh.2)
    simp only [render_turn_view_roster, hqg, hg, hqt, turnplayers_for_turn] at *
    simp [hqt, hne_empty]
  · intro attachment note
    have hcomp := cmd_mup_components (cmd_join s channel_id author_id msg_id args now)
      channel_id game.op_user_id msg_id attachment note now game hjg rfl
    have hplayers := congrFun
      (cmd_join_players s channel_id author_id msg_id args now game hg) channel_id
    have hne : (cmd_join s channel_id author_id msg_id args now).players channel_id ≠
        [] := by
      rw [hplayers]
      exact player_add_ne_nil s channel_id author_id (norm_name args) now
    refine ⟨hcomp.2.1, ?_⟩
    unfold render_turn_view_roster
    cases hg2 : game_get
        (cmd_mup (cmd_join s channel_id author_id msg_id args now) channel_id
          game.op_user_id msg_id attachment note now).1 channel_id with
    | none => exact absurd hg2 hcomp.2.2.1
    | some g2 =>
      have hsnap2 : turnplayers_for_turn
          (cmd_mup (cmd_join s channel_id author_id msg_id args now) channel_id
            game.op_user_id msg_id attachment note now).1 channel_id
          (game.turn_number + 1) =
          (cmd_join s channel_id author_id msg_id args now).players channel_id :=
        hcomp.2.1
      rw [hsnap2]
      simp [isEmpty_false_of_ne_nil hne]

theorem claim_c7_witness :
    render_turn_view_roster (cmd_join store_turn1 "chan" "alice" "mx" "Zed" 4) "chan" 0 =
      render_turn_view_roster store_turn1 "chan" 0 ∧
    render_turn_view_roster (cmd_quit store_turn1 "chan" "alice" "mx" 4) "chan" 0 =
      render_turn_view_roster store_turn1 "chan" 0 ∧
    turnplayers_for_turn
      (cmd_mup (cmd_join store_turn1 "chan" "alice" "mx" "Zed" 4) "chan" "op" "mx"
        none "" 4).1 "chan" 2 =
      (cmd_join store_turn1 "chan" "alice" "mx" "Zed" 4).players "chan" ∧
    render_turn_view_roster
      (cmd_mup (cmd_join store_turn1 "chan" "alice" "mx" "Zed" 4) "chan" "op" "mx"
        none "" 4).1 "chan" 2 =
      some ((cmd_join store_turn1 "chan" "alice" "mx" "Zed" 4).players "chan") := by
  have h := claim_c7 store_turn1 "chan" "alice" "mx" "Zed" 4 0
    ⟨"op", 1, "m1", some "att0", some "map.png", 0⟩ (by decide) (by decide) (by decide)
  exact ⟨h.1, h.2.1, (h.2.2 none "").1, (h.2.2 none "").2⟩

end Risk
